import Mathlib

/-!
Shallow embedding of `wrappers/python/simtk/openmm/app/gromacsgrofile.py`
(the GROMACS `.gro` file parser of OpenMM) and proofs about it.

Python strings are Lean `String`s, Python `float` values are modelled as
exact rationals (`Rat`) — only the identity of the parsed numbers flows
through the parser, no rounding-sensitive property is stated — and Python
exceptions are modelled with `Except String`.
-/

/-- Python whitespace, as used by `str.split()` and `str.strip()`:
space, tab, newline, carriage return, vertical tab, form feed. -/
def isPySpace (c : Char) : Bool :=
  c = ' ' || c = '\t' || c = '\n' || c = '\r' || c = '\x0b' || c = '\x0c'

/-- Characters of a Python string slice `s[a:b]` (clamping, like Python). -/
def pySliceChars (l : List Char) (a b : Nat) : List Char :=
  (l.drop a).take (b - a)

/-- Python string slice `s[a:b]`. -/
def pySlice (s : String) (a b : Nat) : String :=
  String.mk (pySliceChars s.toList a b)

/-- Python `str.strip()` on a character list. -/
def pyStripChars (l : List Char) : List Char :=
  ((l.dropWhile isPySpace).reverse.dropWhile isPySpace).reverse

/-- Python `str.strip()`. -/
def pyStrip (s : String) : String :=
  String.mk (pyStripChars s.toList)

/-- Helper for `pySplit`: walk the characters, carrying the current
word reversed. -/
def pyWordsAux : List Char → List Char → List (List Char)
  | [], cur => if cur.isEmpty then [] else [cur.reverse]
  | c :: rest, cur =>
    if isPySpace c then
      if cur.isEmpty then pyWordsAux rest [] else cur.reverse :: pyWordsAux rest []
    else pyWordsAux rest (c :: cur)

/-- Python `str.split()` with no arguments: split on runs of whitespace,
dropping empty fields. -/
def pySplit (s : String) : List String :=
  (pyWordsAux s.toList []).map String.mk

/-- Numeric value of a digit string (characters assumed to be digits). -/
def digitsVal (l : List Char) : Nat :=
  l.foldl (fun a c => a * 10 + (c.toNat - '0'.toNat)) 0

/-- Python `int(s)`: optional surrounding whitespace, an optional sign,
then one or more digits; `none` models the `ValueError`. -/
def pyInt (s : String) : Option Int :=
  match pyStripChars s.toList with
  | '+' :: r => if !r.isEmpty && r.all Char.isDigit then some (digitsVal r) else none
  | '-' :: r => if !r.isEmpty && r.all Char.isDigit then some (-(digitsVal r : Int)) else none
  | r => if !r.isEmpty && r.all Char.isDigit then some (digitsVal r) else none

/-- Exponent suffix of a Python float literal: `[sign] digits`, which must
reach the end of the string.  The mantissa is carried as a numerator `n`
and positive denominator `d`; the result is the exact rational. -/
def pyFloatExp (n : Int) (d : Nat) (r : List Char) : Option Rat :=
  match r with
  | '+' :: t => if !t.isEmpty && t.all Char.isDigit then
      some (mkRat (n * ((10 ^ digitsVal t : Nat) : Int)) d) else none
  | '-' :: t => if !t.isEmpty && t.all Char.isDigit then
      some (mkRat n (d * 10 ^ digitsVal t)) else none
  | t => if !t.isEmpty && t.all Char.isDigit then
      some (mkRat (n * ((10 ^ digitsVal t : Nat) : Int)) d) else none

/-- Python `float(s)` on the finite decimal grammar
`[sign] (digits [. digits] | . digits) [("e"|"E") [sign] digits]`,
with optional surrounding whitespace; the result is the exact rational the
literal denotes and `none` models the `ValueError`.  (`inf`/`nan` are not
modelled: no claim depends on them.) -/
def pyFloat (s : String) : Option Rat :=
  let l := pyStripChars s.toList
  let neg : Bool := l.head? = some '-'
  let l1 := match l with
    | '+' :: r => r
    | '-' :: r => r
    | r => r
  let ip := l1.takeWhile Char.isDigit
  let l2 := l1.dropWhile Char.isDigit
  let fp := match l2 with
    | '.' :: r => r.takeWhile Char.isDigit
    | _ => []
  let l3 := match l2 with
    | '.' :: r => r.dropWhile Char.isDigit
    | r => r
  if ip.isEmpty && fp.isEmpty then none
  else
    let nmag : Int := ((digitsVal ip * 10 ^ fp.length + digitsVal fp : Nat) : Int)
    let n : Int := if neg then -nmag else nmag
    let d : Nat := 10 ^ fp.length
    match l3 with
    | [] => some (mkRat n d)
    | 'e' :: r => pyFloatExp n d r
    | 'E' :: r => pyFloatExp n d r
    | _ => none

/-- Core of the regex `[-+]?[0-9]+` matched against a whole string. -/
def isintCore (l : List Char) : Bool :=
  let r := match l with
    | '+' :: t => t
    | '-' :: t => t
    | t => t
  !r.isEmpty && r.all Char.isDigit

/-- The source's `_isint`: `re.match('^[-+]?[0-9]+$', word)`.  Python's
`$` also matches just before one trailing newline, so a sign-and-digits
string followed by a single final `'\n'` is accepted too. -/
def _isint (w : String) : Bool :=
  isintCore w.toList ||
    ((w.toList.getLast? == some '\n') && isintCore w.toList.dropLast)

/-- Core of the regex `[-+]?[0-9]*\.?[0-9]*([eEdD][-+]?[0-9]+)?` matched
against a whole string; every component is optional, so the empty string
and a bare sign match. -/
def isfloatCore (l : List Char) : Bool :=
  let r0 := match l with
    | '+' :: t => t
    | '-' :: t => t
    | t => t
  let r1 := r0.dropWhile Char.isDigit
  let r2 := match r1 with
    | '.' :: t => t
    | t => t
  let r3 := r2.dropWhile Char.isDigit
  match r3 with
  | [] => true
  | c :: t =>
    (c = 'e' || c = 'E' || c = 'd' || c = 'D') &&
      (let t2 := match t with
        | '+' :: u => u
        | '-' :: u => u
        | u => u
      !t2.isEmpty && t2.all Char.isDigit)

/-- The source's `_isfloat`:
`re.match('^[-+]?[0-9]*\.?[0-9]*([eEdD][-+]?[0-9]+)?$', word)`, with the
same trailing-newline behaviour of `$` as `_isint`. -/
def _isfloat (w : String) : Bool :=
  isfloatCore w.toList ||
    ((w.toList.getLast? == some '\n') && isfloatCore w.toList.dropLast)

/-- The source's `_is_gro_coord`: free-format branch (6 or 9 tokens),
fixed-format branch (5 or 8 tokens, integer taken from raw character
columns 15–19), otherwise not a coordinate line. -/
def _is_gro_coord (line : String) : Bool :=
  let sline := pySplit line
  if sline.length = 6 ∨ sline.length = 9 then
    _isint (sline.getD 2 "") && _isfloat (sline.getD 3 "") &&
      _isfloat (sline.getD 4 "") && _isfloat (sline.getD 5 "")
  else if sline.length = 5 ∨ sline.length = 8 then
    _isint (pySlice line 15 20) && _isfloat (sline.getD 2 "") &&
      _isfloat (sline.getD 3 "") && _isfloat (sline.getD 4 "")
  else
    false

/-- The source's `_is_gro_box`: 9 or 3 whitespace tokens, all matching
`_isfloat`. -/
def _is_gro_box (line : String) : Bool :=
  let sline := pySplit line
  if sline.length = 9 ∧ sline.all _isfloat then true
  else if sline.length = 3 ∧ sline.all _isfloat then true
  else false

/-- Modelled from the spec: the element-table collaborator (`import
element as elem` is not under `src/`).  Per §6 it is a lookup from a 1–2
letter symbol to a recognized chemical element.  The table holds the
standard periodic-table symbols. -/
def elementSymbols : List String :=
  ["H", "He", "Li", "Be", "B", "C", "N", "O", "F", "Ne",
   "Na", "Mg", "Al", "Si", "P", "S", "Cl", "Ar", "K", "Ca",
   "Sc", "Ti", "V", "Cr", "Mn", "Fe", "Co", "Ni", "Cu", "Zn",
   "Ga", "Ge", "As", "Se", "Br", "Kr", "Rb", "Sr", "Y", "Zr",
   "Nb", "Mo", "Tc", "Ru", "Rh", "Pd", "Ag", "Cd", "In", "Sn",
   "Sb", "Te", "I", "Xe", "Cs", "Ba", "La", "Ce", "Pr", "Nd",
   "Pm", "Sm", "Eu", "Gd", "Tb", "Dy", "Ho", "Er", "Tm", "Yb",
   "Lu", "Hf", "Ta", "W", "Re", "Os", "Ir", "Pt", "Au", "Hg",
   "Tl", "Pb", "Bi", "Po", "At", "Rn", "Fr", "Ra", "Ac", "Th",
   "Pa", "U", "Np", "Pu", "Am", "Cm", "Bk", "Cf", "Es", "Fm",
   "Md", "No", "Lr"]

/-- Modelled from the spec: `elem.get_by_symbol`, made total with `none`
for an unknown symbol (the source wraps the throwing lookup in
`try/except KeyError`).  An element is recorded by its symbol string. -/
def get_by_symbol (sym : String) : Option String :=
  if elementSymbols.contains sym then some sym else none

/-- Entries appended to `elements` for one frame-0 atom record with atom
name `name` (source lines 129–135): only a name of length `> 1` appends
anything; the entry is the lookup result for the name's first character
followed by the remainder with uppercase letters and digits removed
(`sub('[A-Z0-9]','',thiselem[1:])`): `some` symbol on success, `none` on
`KeyError`. -/
def elemEntries (name : String) : List (Option String) :=
  if 1 < name.length then
    match name.toList with
    | c :: rest =>
      [get_by_symbol (String.mk (c :: rest.filter fun ch => !(ch.isUpper || ch.isDigit)))]
    | [] => []
  else []

/-- One 3D position, with exact-rational components. -/
abbrev Vec3 := Rat × Rat × Rat

/-- The local state of the `__init__` read loop. -/
structure LoopState where
  xyzs : List (List Vec3)
  elements : List (Option String)
  atomname : List String
  comms : List String
  resid : List Int
  resname : List String
  boxes : List (List Rat)
  xyz : List Vec3
  ln : Int
  frame : Nat
  na : Int
deriving DecidableEq

/-- Initial loop state.  The Python local `na` is always assigned (at
`ln == 1`) before any branch reads it; `0` stands for the unassigned
local. -/
def initState : LoopState :=
  { xyzs := [], elements := [], atomname := [], comms := [], resid := [],
    resname := [], boxes := [], xyz := [], ln := 0, frame := 0, na := 0 }

/-- One iteration of the `for line in open(file)` loop of `__init__`
(source lines 118–147), including the trailing `ln += 1`; the box branch
sets `ln = -1` first, so it ends the iteration with `ln = 0`. -/
def groStep (s : LoopState) (line : String) : Except String LoopState :=
  if s.ln = 0 then
    .ok { s with comms := s.comms ++ [pyStrip line], ln := s.ln + 1 }
  else if s.ln = 1 then
    match pyInt (pyStrip line) with
    | some n => .ok { s with na := n, ln := s.ln + 1 }
    | none => .error ("ValueError: invalid literal for int(): " ++ pyStrip line)
  else if _is_gro_coord line then
    let s1m : Except String LoopState :=
      if s.frame = 0 then
        match pyInt (pyStrip (pySlice line 0 5)) with
        | some resnum =>
          .ok { s with
            resname := s.resname ++ [pyStrip (pySlice line 5 10)],
            resid := s.resid ++ [resnum],
            atomname := s.atomname ++ [pyStrip (pySlice line 10 15)],
            elements := s.elements ++ elemEntries (pyStrip (pySlice line 10 15)) }
        | none => .error ("ValueError: invalid literal for int(): " ++ pyStrip (pySlice line 0 5))
      else .ok s
    match s1m with
    | .error e => .error e
    | .ok s1 =>
      match pyFloat (pySlice line 20 28), pyFloat (pySlice line 28 36), pyFloat (pySlice line 36 44) with
      | some p0, some p1, some p2 =>
        .ok { s1 with xyz := s1.xyz ++ [(p0, p1, p2)], ln := s.ln + 1 }
      | _, _, _ => .error "ValueError: could not convert string to float"
  else if _is_gro_box line ∧ s.ln = s.na + 2 then
    match (pySplit line).mapM pyFloat with
    | some fs =>
      .ok { s with boxes := s.boxes ++ [fs], xyzs := s.xyzs ++ [s.xyz],
                   xyz := [], ln := 0, frame := s.frame + 1 }
    | none => .error "ValueError: could not convert string to float"
  else
    .error ("Unexpected line in .gro file: " ++ line)

/-- Run the read loop over the remaining lines. -/
def groRun : List String → LoopState → Except String LoopState
  | [], s => .ok s
  | l :: ls, s =>
    match groStep s l with
    | .ok s1 => groRun ls s1
    | .error e => .error e

/-- The cached `Quantity`-wrapped numpy array of one frame's positions;
only its numeric content is modelled. -/
structure NumpyQuantity where
  arr : List Vec3
deriving DecidableEq

/-- The finished object: exactly the fields `__init__` stores on `self`
(source lines 149–161).  The local `comms` is dropped by the source. -/
structure GromacsGroFile where
  positions : List Vec3
  elements : List (Option String)
  atomNames : List String
  residueIds : List Int
  residueNames : List String
  _positions : List (List Vec3)
  _unitCellDimensions : List (List Rat)
  _numpyPositions : Option (List (Option NumpyQuantity))
deriving DecidableEq

/-- `GromacsGroFile.__init__` over the file's lines.  After the loop,
`self.positions = xyzs[0]` raises `IndexError` when no frame was sealed. -/
def GromacsGroFile.init (lines : List String) : Except String GromacsGroFile :=
  match groRun lines initState with
  | .error e => .error e
  | .ok s =>
    match s.xyzs with
    | [] => .error "IndexError: list index out of range"
    | first :: _ =>
      .ok { positions := first, elements := s.elements, atomNames := s.atomname,
            residueIds := s.resid, residueNames := s.resname,
            _positions := s.xyzs, _unitCellDimensions := s.boxes,
            _numpyPositions := none }

/-- `GromacsGroFile.getNumFrames`. -/
def GromacsGroFile.getNumFrames (m : GromacsGroFile) : Nat :=
  m._positions.length

/-- Python list indexing: resolve index `i` (negative indices address
from the end) against a list of length `len`; `none` models `IndexError`. -/
def pyIdx (len : Nat) (i : Int) : Option Nat :=
  let j := if i < 0 then i + len else i
  if 0 ≤ j ∧ j < len then some j.toNat else none

/-- Python `l[i]`. -/
def pyGet {α : Type} (l : List α) (i : Int) : Option α :=
  (pyIdx l.length i).bind fun j => l.get? j

/-- Python `l[i] = v`, returning the updated list. -/
def pySet {α : Type} (l : List α) (i : Int) (v : α) : Option (List α) :=
  (pyIdx l.length i).map fun j => l.set j v

/-- A value returned by `getPositions`: the native list of `Vec3`, or the
numpy-array representation. -/
inductive PosValue where
  | native (ps : List Vec3)
  | numpy (q : NumpyQuantity)
deriving DecidableEq

/-- `Quantity.value_in_unit(nanometers)` on positions already tagged in
nanometers: returns the raw values unchanged (no conversion happens). -/
def value_in_unit (ps : List Vec3) : List Vec3 := ps

/-- `numpy.array` over the list of `Vec3` values: content-preserving. -/
def numpyArray (ps : List Vec3) : NumpyQuantity := ⟨ps⟩

/-- `GromacsGroFile.getPositions` (source lines 167–180).  The updated
object is returned alongside the value because the `asNumpy` path mutates
`self._numpyPositions`. -/
def GromacsGroFile.getPositions (m : GromacsGroFile) (asNumpy : Bool) (frame : Int) :
    Except String (PosValue × GromacsGroFile) :=
  if asNumpy then
    let cache := match m._numpyPositions with
      | none => List.replicate m._positions.length none
      | some c => c
    match pyGet cache frame with
    | none => .error "IndexError: list index out of range"
    | some (some q) => .ok (.numpy q, { m with _numpyPositions := some cache })
    | some none =>
      match pyGet m._positions frame with
      | none => .error "IndexError: list index out of range"
      | some ps =>
        let q := numpyArray (value_in_unit ps)
        match pySet cache frame (some q) with
        | none => .error "IndexError: list index out of range"
        | some cache1 => .ok (.numpy q, { m with _numpyPositions := some cache1 })
  else
    match pyGet m._positions frame with
    | none => .error "IndexError: list index out of range"
    | some ps => .ok (.native ps, m)

/-- `GromacsGroFile.getUnitCellDimensions` (source lines 182–188). -/
def GromacsGroFile.getUnitCellDimensions (m : GromacsGroFile) (frame : Int) :
    Except String (List Rat) :=
  match pyGet m._unitCellDimensions frame with
  | none => .error "IndexError: list index out of range"
  | some b => .ok b

/-- Rendering of the spec's `isInteger` (§4.1): "true iff token matches an
optional sign followed by one or more digits, nothing else". -/
def specIsInteger (w : String) : Bool :=
  isintCore w.toList

/-- Rendering of the spec's `isNumeric` (§4.1): optional sign, digits,
optional decimal point, more digits, optional `e`/`E`/`d`/`D` exponent
marker with a signed integer exponent, every component optional. -/
def specNumeric (w : String) : Bool :=
  isfloatCore w.toList

/-- Claim C6 as stated: the coordinate classifier holds iff (a) the token
count is 6 or 9, token 2 is a pure integer and tokens 3–5 are numeric, or
(b) the token count is 5 or 8, the raw unstripped substring at character
columns 15–19 is a pure integer and tokens 2–4 are numeric. -/
def specCoordC6 (line : String) : Bool :=
  let toks := pySplit line
  ((toks.length == 6 || toks.length == 9) &&
    (specIsInteger (toks.getD 2 "") && specNumeric (toks.getD 3 "") &&
      specNumeric (toks.getD 4 "") && specNumeric (toks.getD 5 ""))) ||
  ((toks.length == 5 || toks.length == 8) &&
    (specIsInteger (pySlice line 15 20) && specNumeric (toks.getD 2 "") &&
      specNumeric (toks.getD 3 "") && specNumeric (toks.getD 4 "")))

/-- A pure integer optionally followed by one trailing newline character:
what the raw column-15–19 test of the classifier actually accepts, because
Python's `$` also matches just before a final newline. -/
def specIsIntegerNL (w : String) : Bool :=
  specIsInteger w ||
    ((w.toList.getLast? == some '\n') && isintCore w.toList.dropLast)

/-- Claim C6 as amended: same as `specCoordC6` except that in the
fixed-format branch the raw columns 15–19 may also be a pure integer
followed by a single trailing newline. -/
def specCoordC6Amended (line : String) : Bool :=
  let toks := pySplit line
  ((toks.length == 6 || toks.length == 9) &&
    (specIsInteger (toks.getD 2 "") && specNumeric (toks.getD 3 "") &&
      specNumeric (toks.getD 4 "") && specNumeric (toks.getD 5 ""))) ||
  ((toks.length == 5 || toks.length == 8) &&
    (specIsIntegerNL (pySlice line 15 20) && specNumeric (toks.getD 2 "") &&
      specNumeric (toks.getD 3 "") && specNumeric (toks.getD 4 "")))

/-- One complete frame of input, as a record of its lines. -/
structure FrameData where
  title : String
  naLine : String
  atomLines : List String
  boxLine : String
deriving DecidableEq

/-- The lines of a frame, in file order. -/
def FrameData.lines (f : FrameData) : List String :=
  f.title :: f.naLine :: f.atomLines ++ [f.boxLine]

/-- A coordinate line the scanner can fully consume: it classifies as a
coordinate line, its residue-id columns 0–4 parse as an integer and its
three fixed position columns parse as floats. -/
def wellAtom (a : String) : Prop :=
  _is_gro_coord a = true ∧
    (pyInt (pyStrip (pySlice a 0 5))).isSome = true ∧
    (pyFloat (pySlice a 20 28)).isSome = true ∧
    (pyFloat (pySlice a 28 36)).isSome = true ∧
    (pyFloat (pySlice a 36 44)).isSome = true

instance (a : String) : Decidable (wellAtom a) := by
  unfold wellAtom; infer_instance

/-- A box line the scanner can seal a frame with: it classifies as a box
line, does not classify as a coordinate line (the coordinate branch is
tested first and would otherwise consume it — see C1), and all its tokens
convert as floats. -/
def boxSeals (b : String) : Prop :=
  _is_gro_coord b = false ∧ _is_gro_box b = true ∧
    ((pySplit b).mapM pyFloat).isSome = true

instance (b : String) : Decidable (boxSeals b) := by
  unfold boxSeals; infer_instance

/-- A complete frame declaring `na` atoms, in the sense of §4.2's
"fully sealed": a title (any line), an atom-count line parsing to `na`,
exactly `na` fully consumable coordinate lines, and a sealing box line at
per-frame offset `na + 2`. -/
def frameOk (na : Nat) (f : FrameData) : Prop :=
  pyInt (pyStrip f.naLine) = some (na : Int) ∧
    f.atomLines.length = na ∧
    (∀ a ∈ f.atomLines, wellAtom a) ∧
    boxSeals f.boxLine

instance (na : Nat) (f : FrameData) : Decidable (frameOk na f) := by
  unfold frameOk; infer_instance

/-- A truncated trailing partial frame: input that ends before any box
line is consumed — nothing, a title alone, or a title, an atom-count line
that parses, and any number of consumable coordinate lines. -/
def leftoverOk : List String → Prop
  | [] => True
  | [_] => True
  | _ :: naLine :: coords =>
      (pyInt (pyStrip naLine)).isSome = true ∧ ∀ c ∈ coords, wellAtom c

instance (ls : List String) : Decidable (leftoverOk ls) := by
  unfold leftoverOk
  match ls with
  | [] => infer_instance
  | [_] => infer_instance
  | _ :: _ :: _ => infer_instance

/-- Equality of loop outcomes is decidable (used to evaluate the model on
concrete inputs). -/
instance {e a : Type} [DecidableEq e] [DecidableEq a] : DecidableEq (Except e a) :=
  fun x y =>
    match x, y with
    | .ok v, .ok w =>
      if h : v = w then isTrue (by rw [h]) else isFalse (fun hc => h (Except.ok.inj hc))
    | .error v, .error w =>
      if h : v = w then isTrue (by rw [h]) else isFalse (fun hc => h (Except.error.inj hc))
    | .ok _, .error _ => isFalse (fun hc => Except.noConfusion hc)
    | .error _, .ok _ => isFalse (fun hc => Except.noConfusion hc)

theorem groStep_title (s : LoopState) (line : String) (h : s.ln = 0) :
    groStep s line = .ok { s with comms := s.comms ++ [pyStrip line], ln := s.ln + 1 } := by
  unfold groStep
  rw [if_pos h]

theorem groStep_na (s : LoopState) (line : String) (n : Int) (h0 : ¬s.ln = 0) (h1 : s.ln = 1)
    (hp : pyInt (pyStrip line) = some n) :
    groStep s line = .ok { s with na := n, ln := s.ln + 1 } := by
  unfold groStep
  rw [if_neg h0, if_pos h1, hp]

theorem groStep_coord0 (s : LoopState) (line : String) (h0 : ¬s.ln = 0) (h1 : ¬s.ln = 1)
    (hc : _is_gro_coord line = true) (hf : s.frame = 0)
    (r : Int) (hr : pyInt (pyStrip (pySlice line 0 5)) = some r)
    (p0 p1 p2 : Rat) (hp0 : pyFloat (pySlice line 20 28) = some p0)
    (hp1 : pyFloat (pySlice line 28 36) = some p1)
    (hp2 : pyFloat (pySlice line 36 44) = some p2) :
    groStep s line = .ok { s with
      resname := s.resname ++ [pyStrip (pySlice line 5 10)],
      resid := s.resid ++ [r],
      atomname := s.atomname ++ [pyStrip (pySlice line 10 15)],
      elements := s.elements ++ elemEntries (pyStrip (pySlice line 10 15)),
      xyz := s.xyz ++ [(p0, p1, p2)], ln := s.ln + 1 } := by
  unfold groStep
  rw [if_neg h0, if_neg h1, if_pos hc, if_pos hf, hr, hp0, hp1, hp2]

theorem groStep_coord1 (s : LoopState) (line : String) (h0 : ¬s.ln = 0) (h1 : ¬s.ln = 1)
    (hc : _is_gro_coord line = true) (hf : ¬s.frame = 0)
    (p0 p1 p2 : Rat) (hp0 : pyFloat (pySlice line 20 28) = some p0)
    (hp1 : pyFloat (pySlice line 28 36) = some p1)
    (hp2 : pyFloat (pySlice line 36 44) = some p2) :
    groStep s line = .ok { s with xyz := s.xyz ++ [(p0, p1, p2)], ln := s.ln + 1 } := by
  unfold groStep
  rw [if_neg h0, if_neg h1, if_pos hc, if_neg hf, hp0, hp1, hp2]

theorem groStep_box (s : LoopState) (line : String) (h0 : ¬s.ln = 0) (h1 : ¬s.ln = 1)
    (hc : _is_gro_coord line = false) (hb : _is_gro_box line = true) (hln : s.ln = s.na + 2)
    (fs : List Rat) (hfs : (pySplit line).mapM pyFloat = some fs) :
    groStep s line = .ok { s with boxes := s.boxes ++ [fs], xyzs := s.xyzs ++ [s.xyz],
                                  xyz := [], ln := 0, frame := s.frame + 1 } := by
  unfold groStep
  rw [if_neg h0, if_neg h1, if_neg (by rw [hc]; exact Bool.false_ne_true),
    if_pos ⟨hb, hln⟩, hfs]

theorem groStep_err (s : LoopState) (line : String) (h0 : ¬s.ln = 0) (h1 : ¬s.ln = 1)
    (hc : _is_gro_coord line = false) (hb : ¬(_is_gro_box line = true ∧ s.ln = s.na + 2)) :
    groStep s line = .error ("Unexpected line in .gro file: " ++ line) := by
  unfold groStep
  rw [if_neg h0, if_neg h1, if_neg (by rw [hc]; exact Bool.false_ne_true), if_neg hb]

theorem groRun_nil (s : LoopState) : groRun [] s = .ok s := rfl

theorem groRun_cons_ok (l : String) (ls : List String) (s s1 : LoopState)
    (h : groStep s l = .ok s1) : groRun (l :: ls) s = groRun ls s1 := by
  show (match groStep s l with
        | .ok s1 => groRun ls s1
        | .error e => .error e) = groRun ls s1
  rw [h]

theorem groRun_cons_err (l : String) (ls : List String) (s : LoopState) (e : String)
    (h : groStep s l = .error e) : groRun (l :: ls) s = .error e := by
  show (match groStep s l with
        | .ok s1 => groRun ls s1
        | .error e => .error e) = .error e
  rw [h]

theorem groRun_append (as bs : List String) (s : LoopState) :
    groRun (as ++ bs) s =
      match groRun as s with
      | .ok t => groRun bs t
      | .error e => .error e := by
  induction as generalizing s with
  | nil => rfl
  | cons a as ih =>
    cases h : groStep s a with
    | ok s1 =>
      rw [List.cons_append, groRun_cons_ok a (as ++ bs) s s1 h,
        groRun_cons_ok a as s s1 h, ih s1]
    | error e =>
      rw [List.cons_append, groRun_cons_err a (as ++ bs) s e h,
        groRun_cons_err a as s e h]

theorem groRun_atoms (atoms : List String) (s : LoopState)
    (hw : ∀ a ∈ atoms, wellAtom a) (hln : 2 ≤ s.ln) :
    ∃ r, groRun atoms s = .ok r ∧
      r.ln = s.ln + atoms.length ∧
      r.frame = s.frame ∧ r.na = s.na ∧ r.xyzs = s.xyzs ∧ r.boxes = s.boxes ∧
      r.xyz.length = s.xyz.length + atoms.length ∧
      r.atomname.length = s.atomname.length + (if s.frame = 0 then atoms.length else 0) := by
  induction atoms generalizing s with
  | nil =>
    exact ⟨s, groRun_nil s, by simp, rfl, rfl, rfl, rfl, by simp, by simp⟩
  | cons a as ih =>
    obtain ⟨hc, hr, hp0, hp1, hp2⟩ := hw a (List.mem_cons_self a as)
    obtain ⟨rv, hrv⟩ := Option.isSome_iff_exists.mp hr
    obtain ⟨p0, hq0⟩ := Option.isSome_iff_exists.mp hp0
    obtain ⟨p1, hq1⟩ := Option.isSome_iff_exists.mp hp1
    obtain ⟨p2, hq2⟩ := Option.isSome_iff_exists.mp hp2
    have h0 : ¬s.ln = 0 := by omega
    have h1 : ¬s.ln = 1 := by omega
    have hw2 : ∀ x ∈ as, wellAtom x := fun x hx => hw x (List.mem_cons_of_mem a hx)
    by_cases hf : s.frame = 0
    · have hstep := groStep_coord0 s a h0 h1 hc hf rv hrv p0 p1 p2 hq0 hq1 hq2
      obtain ⟨r, hrun, hln2, hfr, hna, hxyzs, hboxes, hxyzlen, hatomlen⟩ :=
        ih { s with
          resname := s.resname ++ [pyStrip (pySlice a 5 10)],
          resid := s.resid ++ [rv],
          atomname := s.atomname ++ [pyStrip (pySlice a 10 15)],
          elements := s.elements ++ elemEntries (pyStrip (pySlice a 10 15)),
          xyz := s.xyz ++ [(p0, p1, p2)], ln := s.ln + 1 } hw2 (by dsimp only; omega)
      refine ⟨r, ?_, ?_, ?_, ?_, ?_, ?_, ?_, ?_⟩
      · rw [groRun_cons_ok a as s _ hstep]; exact hrun
      · dsimp only at hln2; simp only [List.length_cons]; omega
      · dsimp only at hfr; rw [hfr]
      · dsimp only at hna; rw [hna]
      · dsimp only at hxyzs; rw [hxyzs]
      · dsimp only at hboxes; rw [hboxes]
      · dsimp only at hxyzlen; simp only [List.length_append, List.length_cons,
          List.length_nil] at hxyzlen ⊢; omega
      · dsimp only at hatomlen
        rw [if_pos hf] at hatomlen ⊢
        simp only [List.length_append, List.length_cons, List.length_nil] at hatomlen ⊢
        omega
    · have hstep := groStep_coord1 s a h0 h1 hc hf p0 p1 p2 hq0 hq1 hq2
      obtain ⟨r, hrun, hln2, hfr, hna, hxyzs, hboxes, hxyzlen, hatomlen⟩ :=
        ih { s with xyz := s.xyz ++ [(p0, p1, p2)], ln := s.ln + 1 } hw2
          (by dsimp only; omega)
      refine ⟨r, ?_, ?_, ?_, ?_, ?_, ?_, ?_, ?_⟩
      · rw [groRun_cons_ok a as s _ hstep]; exact hrun
      · dsimp only at hln2; simp only [List.length_cons]; omega
      · dsimp only at hfr; rw [hfr]
      · dsimp only at hna; rw [hna]
      · dsimp only at hxyzs; rw [hxyzs]
      · dsimp only at hboxes; rw [hboxes]
      · dsimp only at hxyzlen; simp only [List.length_append, List.length_cons,
          List.length_nil] at hxyzlen ⊢; omega
      · dsimp only at hatomlen
        rw [if_neg hf] at hatomlen ⊢
        omega

theorem groRun_frame (na : Nat) (f : FrameData) (s : LoopState)
    (hfo : frameOk na f) (hln : s.ln = 0) (hxyz : s.xyz = []) :
    ∃ r ps, groRun f.lines s = .ok r ∧
      r.ln = 0 ∧ r.xyz = [] ∧ r.frame = s.frame + 1 ∧
      r.xyzs = s.xyzs ++ [ps] ∧ ps.length = na ∧
      r.boxes.length = s.boxes.length + 1 ∧
      r.atomname.length = s.atomname.length + (if s.frame = 0 then na else 0) := by
  obtain ⟨hna, hlen, hatoms, hbox⟩ := hfo
  obtain ⟨hbc, hbb, hbf⟩ := hbox
  obtain ⟨fs, hfs⟩ := Option.isSome_iff_exists.mp hbf
  rw [FrameData.lines]
  simp only [List.cons_append]
  rw [groRun_cons_ok f.title (f.naLine :: (f.atomLines ++ [f.boxLine])) s _
    (groStep_title s f.title hln)]
  rw [groRun_cons_ok f.naLine (f.atomLines ++ [f.boxLine]) _ _
    (groStep_na _ f.naLine (na : Int)
      (by dsimp only; omega) (by dsimp only; omega) hna)]
  obtain ⟨r1, hrun, hln2, hfr, hna2, hxyzs, hboxes, hxyzlen, hatomlen⟩ :=
    groRun_atoms f.atomLines { s with
      comms := s.comms ++ [pyStrip f.title], ln := s.ln + 1 + 1, na := (na : Int) }
      hatoms (by dsimp only; omega)
  rw [groRun_append f.atomLines [f.boxLine] _]
  simp only [hrun]
  dsimp only at hln2 hfr hna2 hxyzs hboxes hxyzlen hatomlen
  have hstep := groStep_box r1 f.boxLine
    (by omega) (by omega) hbc hbb (by omega) fs hfs
  rw [groRun_cons_ok _ _ _ _ hstep, groRun_nil]
  simp only [hxyz, List.length_nil] at hxyzlen
  rw [hlen] at hatomlen
  refine ⟨_, r1.xyz, rfl, rfl, rfl, ?_, ?_, ?_, ?_, ?_⟩
  · dsimp only; omega
  · dsimp only; rw [hxyzs]
  · omega
  · dsimp only; rw [hboxes]
    simp only [List.length_append, List.length_cons, List.length_nil]
  · dsimp only; omega

theorem groRun_frames (na : Nat) (fds : List FrameData) (s : LoopState)
    (hf : ∀ f ∈ fds, frameOk na f) (hln : s.ln = 0) (hxyz : s.xyz = []) :
    ∃ r, groRun (fds.map FrameData.lines).flatten s = .ok r ∧
      r.ln = 0 ∧ r.xyz = [] ∧ r.frame = s.frame + fds.length ∧
      r.xyzs.length = s.xyzs.length + fds.length ∧
      (∀ ps ∈ r.xyzs, ps ∈ s.xyzs ∨ ps.length = na) ∧
      r.atomname.length = s.atomname.length +
        (if s.frame = 0 ∧ fds ≠ [] then na else 0) := by
  induction fds generalizing s with
  | nil =>
    refine ⟨s, by simp [groRun_nil], hln, hxyz, by simp, by simp,
      fun ps hps => Or.inl hps, by simp⟩
  | cons fd fds ih =>
    obtain ⟨r1, ps, hrun1, hln1, hxyz1, hfr1, hxyzs1, hpslen, hboxes1, hatom1⟩ :=
      groRun_frame na fd s (hf fd (List.mem_cons_self fd fds)) hln hxyz
    obtain ⟨r, hrun, hln2, hxyz2, hfr2, hxyzslen2, hmem2, hatom2⟩ :=
      ih r1 (fun x hx => hf x (List.mem_cons_of_mem fd hx)) hln1 hxyz1
    refine ⟨r, ?_, hln2, hxyz2, ?_, ?_, ?_, ?_⟩
    · rw [List.map_cons, List.flatten_cons, groRun_append _ _ s]
      simp only [hrun1]
      exact hrun
    · rw [hfr2, hfr1]
      simp only [List.length_cons]
      omega
    · rw [hxyzslen2, hxyzs1]
      simp only [List.length_append, List.length_cons, List.length_nil]
      omega
    · intro q hq
      rcases hmem2 q hq with h | h
      · rw [hxyzs1] at h
        rcases List.mem_append.mp h with h2 | h2
        · exact Or.inl h2
        · rw [List.mem_singleton.mp h2]
          exact Or.inr hpslen
      · exact Or.inr h
    · rw [hatom2, hatom1]
      have hne : ¬(r1.frame = 0 ∧ fds ≠ []) := fun hcontra => by omega
      rw [if_neg hne]
      by_cases hsf : s.frame = 0
      · rw [if_pos hsf, if_pos ⟨hsf, List.cons_ne_nil fd fds⟩]
        omega
      · rw [if_neg hsf, if_neg (fun hcontra => hsf hcontra.1)]

theorem groRun_leftover (ls : List String) (s : LoopState)
    (h : leftoverOk ls) (hln : s.ln = 0) (hframe : ¬s.frame = 0) :
    ∃ r, groRun ls s = .ok r ∧ r.xyzs = s.xyzs ∧
      r.atomname.length = s.atomname.length := by
  match ls with
  | [] => exact ⟨s, groRun_nil s, rfl, rfl⟩
  | [t] =>
    refine ⟨_, groRun_cons_ok t [] s _ (groStep_title s t hln), rfl, rfl⟩
  | t :: naLine :: coords =>
    obtain ⟨hint, hcoords⟩ := h
    obtain ⟨n, hn⟩ := Option.isSome_iff_exists.mp hint
    obtain ⟨r, hrun, hln2, hfr, hna, hxyzs, hboxes, hxyzlen, hatomlen⟩ :=
      groRun_atoms coords { s with
        comms := s.comms ++ [pyStrip t], na := n, ln := s.ln + 1 + 1 }
        hcoords (by dsimp only; omega)
    dsimp only at hatomlen
    rw [if_neg hframe] at hatomlen
    refine ⟨r, ?_, ?_, ?_⟩
    · rw [groRun_cons_ok t (naLine :: coords) s _ (groStep_title s t hln)]
      rw [groRun_cons_ok naLine coords _ _ (groStep_na _ naLine n
        (by dsimp only; omega) (by dsimp only; omega) hn)]
      exact hrun
    · rw [hxyzs]
    · omega

/-- Forget the `comms` accumulator: `__init__` never reads it and drops it
when building the object. -/
def forgetComms (s : LoopState) : LoopState := { s with comms := [] }

/-- Two loop outcomes agree up to the `comms` accumulator. -/
def exceptRel : Except String LoopState → Except String LoopState → Prop
  | .ok a, .ok b => forgetComms a = forgetComms b
  | .error e, .error e2 => e = e2
  | _, _ => False

theorem groStep_rel (s t : LoopState) (line : String)
    (h : forgetComms s = forgetComms t) :
    exceptRel (groStep s line) (groStep t line) := by
  obtain ⟨xs, es, ans, cs, rs, rns, bs, xy, ln, fr, nav⟩ := s
  obtain ⟨xs2, es2, ans2, cs2, rs2, rns2, bs2, xy2, ln2, fr2, nav2⟩ := t
  simp only [forgetComms, LoopState.mk.injEq] at h
  obtain ⟨h1, h2, h3, -, h4, h5, h6, h7, h8, h9, h10⟩ := h
  subst h1; subst h2; subst h3; subst h4; subst h5; subst h6; subst h7
  subst h8; subst h9; subst h10
  unfold groStep
  dsimp only
  split_ifs with c1 c2 c3 c4 c5
  · rfl
  · cases hpi : pyInt (pyStrip line) <;> rfl
  · cases hpi : pyInt (pyStrip (pySlice line 0 5))
    · rfl
    · cases hp0 : pyFloat (pySlice line 20 28) <;>
        cases hp1 : pyFloat (pySlice line 28 36) <;>
        cases hp2 : pyFloat (pySlice line 36 44) <;> rfl
  · cases hp0 : pyFloat (pySlice line 20 28) <;>
      cases hp1 : pyFloat (pySlice line 28 36) <;>
      cases hp2 : pyFloat (pySlice line 36 44) <;> rfl
  · cases hm : (pySplit line).mapM pyFloat <;> rfl
  · rfl

theorem groRun_rel (ls : List String) (s t : LoopState)
    (h : forgetComms s = forgetComms t) :
    exceptRel (groRun ls s) (groRun ls t) := by
  induction ls generalizing s t with
  | nil => exact h
  | cons l ls ih =>
    have hstep := groStep_rel s t l h
    cases hs : groStep s l with
    | ok s1 =>
      cases ht : groStep t l with
      | ok t1 =>
        rw [groRun_cons_ok l ls s s1 hs, groRun_cons_ok l ls t t1 ht]
        rw [hs, ht] at hstep
        exact ih s1 t1 hstep
      | error e =>
        rw [hs, ht] at hstep
        exact hstep.elim
    | error e =>
      cases ht : groStep t l with
      | ok t1 =>
        rw [hs, ht] at hstep
        exact hstep.elim
      | error e2 =>
        rw [groRun_cons_err l ls s e hs, groRun_cons_err l ls t e2 ht]
        rw [hs, ht] at hstep
        exact hstep

theorem pyIdx_bound (len : Nat) (i : Int) (j : Nat) (h : pyIdx len i = some j) :
    j < len := by
  unfold pyIdx at h
  dsimp only at h
  by_cases hneg : i < 0
  · rw [if_pos hneg] at h
    split_ifs at h with hb
    injection h with h2
    omega
  · rw [if_neg hneg] at h
    split_ifs at h with hb
    injection h with h2
    omega

theorem pyGet_eq_get? {α : Type} (l : List α) (i : Int) (j : Nat)
    (h : pyIdx l.length i = some j) : pyGet l i = l.get? j := by
  unfold pyGet
  rw [h]
  rfl

theorem pyGet_some {α : Type} (l : List α) (i : Int) (j : Nat)
    (h : pyIdx l.length i = some j) : ∃ x, pyGet l i = some x ∧ l.get? j = some x := by
  have hb := pyIdx_bound _ _ _ h
  refine ⟨l.get ⟨j, hb⟩, ?_, List.get?_eq_get hb⟩
  rw [pyGet_eq_get? l i j h, List.get?_eq_get hb]

theorem pySet_eq {α : Type} (l : List α) (i : Int) (v : α) (j : Nat)
    (h : pyIdx l.length i = some j) : pySet l i v = some (l.set j v) := by
  unfold pySet
  rw [h]
  rfl

theorem pyIdx_neg_eq (n k : Nat) (h1 : 1 ≤ k) (h2 : k ≤ n) :
    pyIdx n (-(k : Int)) = some (n - k) ∧ pyIdx n ((n : Int) - k) = some (n - k) := by
  unfold pyIdx
  constructor <;> (dsimp only; split_ifs <;> (congr 1; omega))

theorem get?_set_self {α : Type} (l : List α) (j : Nat) (v : α) (h : j < l.length) :
    (l.set j v).get? j = some v := by
  simp [List.get?_eq_getElem?, List.getElem?_set, h]

theorem pyWordsAux_no_space (l : List Char) (cur : List Char)
    (hcur : ∀ c ∈ cur, isPySpace c = false) :
    ∀ w ∈ pyWordsAux l cur, ∀ c ∈ w, isPySpace c = false := by
  induction l generalizing cur with
  | nil =>
    intro w hw c hc
    unfold pyWordsAux at hw
    split_ifs at hw with he
    · cases hw
    · rw [List.mem_singleton] at hw
      subst hw
      exact hcur c (List.mem_reverse.mp hc)
  | cons a l ih =>
    intro w hw c hc
    unfold pyWordsAux at hw
    split_ifs at hw with hsp hemp
    · exact ih [] (fun c hc => absurd hc (List.not_mem_nil c)) w hw c hc
    · rcases List.mem_cons.mp hw with h | h
      · subst h
        exact hcur c (List.mem_reverse.mp hc)
      · exact ih [] (fun c hc => absurd hc (List.not_mem_nil c)) w h c hc
    · refine ih (a :: cur) ?_ w hw c hc
      intro x hx
      rcases List.mem_cons.mp hx with h | h
      · subst h
        simpa using hsp
      · exact hcur x h

theorem token_no_newline (s w : String) (hw : w ∈ pySplit s) :
    (w.toList.getLast? == some '\n') = false := by
  unfold pySplit at hw
  obtain ⟨lw, hlw, rfl⟩ := List.mem_map.mp hw
  rw [beq_eq_false_iff_ne]
  intro hlast
  have hall := pyWordsAux_no_space s.toList [] (fun c hc => absurd hc (List.not_mem_nil c))
    lw hlw '\n' (List.mem_of_mem_getLast? hlast)
  simp [isPySpace] at hall

theorem _isint_token (s w : String) (hw : w ∈ pySplit s) :
    _isint w = specIsInteger w := by
  unfold _isint specIsInteger
  rw [token_no_newline s w hw, Bool.false_and, Bool.or_false]

theorem _isfloat_token (s w : String) (hw : w ∈ pySplit s) :
    _isfloat w = specNumeric w := by
  unfold _isfloat specNumeric
  rw [token_no_newline s w hw, Bool.false_and, Bool.or_false]

theorem getD_mem_of_lt {α : Type} (l : List α) (i : Nat) (d : α) (h : i < l.length) :
    l.getD i d ∈ l := by
  rw [List.getD_eq_getElem?_getD, List.getElem?_eq_getElem h]
  exact List.getElem_mem h

theorem _isint_getD (line : String) (i : Nat) (h : i < (pySplit line).length) :
    _isint ((pySplit line).getD i "") = specIsInteger ((pySplit line).getD i "") :=
  _isint_token line _ (getD_mem_of_lt _ i "" h)

theorem _isfloat_getD (line : String) (i : Nat) (h : i < (pySplit line).length) :
    _isfloat ((pySplit line).getD i "") = specNumeric ((pySplit line).getD i "") :=
  _isfloat_token line _ (getD_mem_of_lt _ i "" h)

theorem _isint_eq_specNL (w : String) : _isint w = specIsIntegerNL w := rfl

theorem coord_classifier_eq (line : String) :
    _is_gro_coord line = specCoordC6Amended line := by
  unfold _is_gro_coord specCoordC6Amended
  dsimp only
  by_cases h69 : (pySplit line).length = 6 ∨ (pySplit line).length = 9
  · rw [if_pos h69]
    have hA : ((pySplit line).length == 6 || (pySplit line).length == 9) = true := by
      rcases h69 with h | h <;> rw [h] <;> rfl
    have hB : ((pySplit line).length == 5 || (pySplit line).length == 8) = false := by
      rcases h69 with h | h <;> rw [h] <;> rfl
    rw [hA, hB, Bool.true_and, Bool.false_and, Bool.or_false]
    have h2 : 2 < (pySplit line).length := by omega
    have h3 : 3 < (pySplit line).length := by omega
    have h4 : 4 < (pySplit line).length := by omega
    have h5 : 5 < (pySplit line).length := by omega
    rw [_isint_getD line 2 h2, _isfloat_getD line 3 h3, _isfloat_getD line 4 h4,
      _isfloat_getD line 5 h5]
  · rw [if_neg h69]
    have hA : ((pySplit line).length == 6 || (pySplit line).length == 9) = false := by
      rw [Bool.or_eq_false_iff]
      constructor <;> rw [beq_eq_false_iff_ne] <;> omega
    by_cases h58 : (pySplit line).length = 5 ∨ (pySplit line).length = 8
    · rw [if_pos h58]
      have hB : ((pySplit line).length == 5 || (pySplit line).length == 8) = true := by
        rcases h58 with h | h <;> rw [h] <;> rfl
      rw [hA, hB, Bool.false_and, Bool.true_and, Bool.false_or]
      have h2 : 2 < (pySplit line).length := by omega
      have h3 : 3 < (pySplit line).length := by omega
      have h4 : 4 < (pySplit line).length := by omega
      rw [_isint_eq_specNL (pySlice line 15 20), _isfloat_getD line 2 h2,
        _isfloat_getD line 3 h3, _isfloat_getD line 4 h4]
    · rw [if_neg h58]
      have hB : ((pySplit line).length == 5 || (pySplit line).length == 8) = false := by
        rw [Bool.or_eq_false_iff]
        constructor <;> rw [beq_eq_false_iff_ne] <;> omega
      rw [hA, hB, Bool.false_and, Bool.false_and, Bool.or_false]

/-- C1 counterexample: the input below reaches per-frame offset
`ln == na + 2 = 3` at a line with 9 all-numeric whitespace tokens, which
classifies as a box line; the claim says the parser then seals the frame
"regardless of whether the same line would also classify as a coordinate
line", but the line also classifies as a coordinate line and the scanner's
`elif` order consumes it as a coordinate record: the frame counter stays
0, no box and no frame are sealed, and the whole parse ends with the
empty-frame `IndexError` instead of one sealed frame. -/
theorem C1_counterexample :
    groRun ["t", "1", "    1SOL     OW    1   1.000   2.000   3.000"] initState =
      .ok { xyzs := [], elements := [some "O"], atomname := ["OW"], comms := ["t"],
            resid := [1], resname := ["SOL"], boxes := [], xyz := [(1, 2, 3)],
            ln := 3, frame := 0, na := 1 } ∧
    (3 : Int) = 1 + 2 ∧
    _is_gro_box "    1    2    3    4     1.0     2.0     3.0 5.0 6.0" = true ∧
    _is_gro_coord "    1    2    3    4     1.0     2.0     3.0 5.0 6.0" = true ∧
    groStep { xyzs := [], elements := [some "O"], atomname := ["OW"], comms := ["t"],
              resid := [1], resname := ["SOL"], boxes := [], xyz := [(1, 2, 3)],
              ln := 3, frame := 0, na := 1 }
        "    1    2    3    4     1.0     2.0     3.0 5.0 6.0" =
      .ok { xyzs := [], elements := [some "O"], atomname := ["OW", "3"], comms := ["t"],
            resid := [1, 1], resname := ["SOL", "2"], boxes := [],
            xyz := [(1, 2, 3), (1, 2, 3)], ln := 4, frame := 0, na := 1 } ∧
    GromacsGroFile.init ["t", "1", "    1SOL     OW    1   1.000   2.000   3.000",
        "    1    2    3    4     1.0     2.0     3.0 5.0 6.0"] =
      .error "IndexError: list index out of range" := by
  refine ⟨by decide, by decide, by decide, by decide, by decide, by decide⟩

/-- C1 (amended): whenever the line at per-frame offset `ln == na + 2`
(with `ln` past the title and count positions) classifies as a box line
AND does not also classify as a coordinate line, and every whitespace
token of the line converts as a float, the parser seals the current
frame's box dimensions and accumulated positions, increments the frame
counter, and resets the per-frame line counter to 0. -/
theorem C1_theorem (s : LoopState) (line : String)
    (h0 : ¬s.ln = 0) (h1 : ¬s.ln = 1) (hofs : s.ln = s.na + 2)
    (hc : _is_gro_coord line = false) (hb : _is_gro_box line = true)
    (fs : List Rat) (hfs : (pySplit line).mapM pyFloat = some fs) :
    groStep s line = .ok { s with boxes := s.boxes ++ [fs], xyzs := s.xyzs ++ [s.xyz],
                                  xyz := [], ln := 0, frame := s.frame + 1 } :=
  groStep_box s line h0 h1 hc hb hofs fs hfs

/-- C1 witness: the amended seal step at a concrete state and box line. -/
theorem C1_witness :
    groStep { xyzs := [], elements := [], atomname := [], comms := ["t"],
              resid := [], resname := [], boxes := [], xyz := [(1, 1, 1)],
              ln := 2, frame := 0, na := 0 } "1.0 2.0 3.0" =
      .ok { xyzs := [[(1, 1, 1)]], elements := [], atomname := [], comms := ["t"],
            resid := [], resname := [], boxes := [[1, 2, 3]], xyz := [],
            ln := 0, frame := 1, na := 0 } :=
  C1_theorem { xyzs := [], elements := [], atomname := [], comms := ["t"],
               resid := [], resname := [], boxes := [], xyz := [(1, 1, 1)],
               ln := 2, frame := 0, na := 0 } "1.0 2.0 3.0"
    (by decide) (by decide) (by decide) (by decide) (by decide) [1, 2, 3] (by decide)

/-- C2: the claim says every frame-0 atom record appends exactly one
element entry whatever the length of the atom name; the code appends an
entry only when the name's length exceeds 1 (`if len(thiselem) > 1:`
guards the `elements.append`), contradicting the code's own field
documentation ("A list containing the element of each atom stored in the
file").  For a single atom named `H` the element list stays empty while
every other topology list has length `na = 1`. -/
theorem C2_theorem :
    ∃ m, GromacsGroFile.init
        ["water", "1", "    1SOL      H    1   1.000   2.000   3.000", "1.0 2.0 3.0"] =
        .ok m ∧
      m.residueIds.length = 1 ∧ m.residueNames.length = 1 ∧
      m.atomNames.length = 1 ∧ m.elements.length = 0 :=
  ⟨{ positions := [(1, 2, 3)], elements := [], atomNames := ["H"],
     residueIds := [1], residueNames := ["SOL"],
     _positions := [[(1, 2, 3)]], _unitCellDimensions := [[1, 2, 3]],
     _numpyPositions := none }, by decide, rfl, rfl, rfl, rfl⟩

/-- C6 counterexample: the line below has exactly 5 whitespace tokens and
its raw columns 15–19 are `"123\n"` — digits plus the line's trailing
newline, not a pure integer — yet the classifier accepts it, because
Python's `$` in `_isint`'s regex also matches just before a final
newline.  The claim's iff (rendered by `specCoordC6`) fails here. -/
theorem C6_counterexample :
    _is_gro_coord "A B 1.0 2.0    123\n" = true ∧
      specCoordC6 "A B 1.0 2.0    123\n" = false := by
  refine ⟨by decide, by decide⟩

/-- C6 (amended): the coordinate classifier returns true iff (a) the
token count is 6 or 9, token 2 is a pure integer and tokens 3–5 are
numeric, or (b) the token count is 5 or 8, the raw unstripped substring
at columns 15–19 is a pure integer **optionally followed by a single
trailing newline character**, and tokens 2–4 are numeric; any other token
count yields false.  In particular a 6-token line whose token 2 is
`"12.0"` is rejected. -/
theorem C6_theorem :
    (∀ line, _is_gro_coord line = specCoordC6Amended line) ∧
      _is_gro_coord "A B 12.0 1.0 2.0 3.0" = false :=
  ⟨coord_classifier_eq, by decide⟩

/-- C7: element inference does map `"HW1"` to `"H"` and `"CA"` to `"C"`
(first character kept, trailing uppercase letters and digits stripped,
resolved against the element table), but the claim's "maps each frame-0
atom name" fails: a name of length 1 such as `"H"` appends no entry at
all — the `elements.append` sits inside `if len(thiselem) > 1:` —
contradicting the code's own field documentation.  Three atoms named
`HW1`, `CA`, `H` produce only two element entries. -/
theorem C7_theorem :
    ∃ m, GromacsGroFile.init
        ["t", "3", "    1SOL    HW1    1   1.000   1.000   1.000",
         "    2SOL     CA    2   1.000   1.000   1.000",
         "    3SOL      H    3   1.000   1.000   1.000", "1.0 1.0 1.0"] = .ok m ∧
      m.atomNames = ["HW1", "CA", "H"] ∧
      m.elements = [some "H", some "C"] ∧
      m.elements.length ≠ m.atomNames.length :=
  ⟨{ positions := [(1, 1, 1), (1, 1, 1), (1, 1, 1)],
     elements := [some "H", some "C"], atomNames := ["HW1", "CA", "H"],
     residueIds := [1, 2, 3], residueNames := ["SOL", "SOL", "SOL"],
     _positions := [[(1, 1, 1), (1, 1, 1), (1, 1, 1)]],
     _unitCellDimensions := [[1, 1, 1]],
     _numpyPositions := none }, by decide, rfl, rfl, by decide⟩

/-- C9: when the loop finishes with zero sealed frames, `__init__` raises
(`xyzs[0]` on the empty list is an `IndexError`), and a successfully
constructed object never has an empty frame list. -/
theorem C9_theorem :
    (∀ lines s, groRun lines initState = .ok s → s.xyzs = [] →
      GromacsGroFile.init lines = .error "IndexError: list index out of range") ∧
    (∀ lines m, GromacsGroFile.init lines = .ok m → m._positions ≠ []) := by
  constructor
  · intro lines s hrun hempty
    unfold GromacsGroFile.init
    rw [hrun]
    dsimp only
    rw [hempty]
  · intro lines m h
    unfold GromacsGroFile.init at h
    cases hr : groRun lines initState with
    | error e =>
      rw [hr] at h
      cases h
    | ok s =>
      rw [hr] at h
      dsimp only at h
      cases hxy : s.xyzs with
      | nil =>
        rw [hxy] at h
        cases h
      | cons a rest =>
        rw [hxy] at h
        dsimp only at h
        injection h with h2
        rw [← h2]
        dsimp only
        exact List.cons_ne_nil a rest

/-- C9 witness: a one-line input seals no frame and raises the
`IndexError`; a complete zero-atom frame parses and yields a nonempty
frame list. -/
theorem C9_witness :
    GromacsGroFile.init ["t"] = .error "IndexError: list index out of range" ∧
    ({ positions := [], elements := [], atomNames := [], residueIds := [],
       residueNames := [], _positions := [[]], _unitCellDimensions := [[1, 1, 1]],
       _numpyPositions := none } : GromacsGroFile)._positions ≠ [] :=
  ⟨C9_theorem.1 ["t"]
      { xyzs := [], elements := [], atomname := [], comms := ["t"], resid := [],
        resname := [], boxes := [], xyz := [], ln := 1, frame := 0, na := 0 }
      (by decide) rfl,
   C9_theorem.2 ["t", "0", "1.0 1.0 1.0"]
      { positions := [], elements := [], atomNames := [], residueIds := [],
        residueNames := [], _positions := [[]], _unitCellDimensions := [[1, 1, 1]],
        _numpyPositions := none }
      (by decide)⟩

/-- C3 counterexample: two inputs that differ only in the title line
construct literally equal objects, so the finished model cannot surface
the title to callers — no function of the constructor's result can
recover it. -/
theorem C3_counterexample :
    GromacsGroFile.init
        ["AAA", "1", "    1SOL     OW    1   1.000   2.000   3.000", "1.0 2.0 3.0"] =
      GromacsGroFile.init
        ["BBB", "1", "    1SOL     OW    1   1.000   2.000   3.000", "1.0 2.0 3.0"] ∧
    "AAA" ≠ "BBB" := by
  refine ⟨by decide, by decide⟩

/-- C3 (amended): the first line is consumed as the frame title and
accumulated in the loop-local `comms`, but `__init__` never stores that
accumulator on the object: the constructor's result is independent of the
title line's content, and the model surfaces only positions, topology
fields, box dimensions and the frame sequence. -/
theorem C3_theorem (t t2 : String) (rest : List String) :
    GromacsGroFile.init (t :: rest) = GromacsGroFile.init (t2 :: rest) := by
  unfold GromacsGroFile.init
  rw [groRun_cons_ok t rest initState _ (groStep_title initState t rfl),
    groRun_cons_ok t2 rest initState _ (groStep_title initState t2 rfl)]
  have hrel := groRun_rel rest
    { initState with comms := initState.comms ++ [pyStrip t], ln := initState.ln + 1 }
    { initState with comms := initState.comms ++ [pyStrip t2], ln := initState.ln + 1 }
    rfl
  cases ha : groRun rest
      { initState with comms := initState.comms ++ [pyStrip t], ln := initState.ln + 1 } with
  | error e =>
    cases hb : groRun rest
        { initState with comms := initState.comms ++ [pyStrip t2], ln := initState.ln + 1 } with
    | error e2 =>
      rw [ha, hb] at hrel
      have hee : e = e2 := hrel
      rw [hee]
    | ok r2 =>
      rw [ha, hb] at hrel
      exact hrel.elim
  | ok r1 =>
    cases hb : groRun rest
        { initState with comms := initState.comms ++ [pyStrip t2], ln := initState.ln + 1 } with
    | error e2 =>
      rw [ha, hb] at hrel
      exact hrel.elim
    | ok r2 =>
      rw [ha, hb] at hrel
      have hfc : forgetComms r1 = forgetComms r2 := hrel
      dsimp only
      have hx0 := congrArg LoopState.xyzs hfc
      have he0 := congrArg LoopState.elements hfc
      have hat0 := congrArg LoopState.atomname hfc
      have hri0 := congrArg LoopState.resid hfc
      have hrn0 := congrArg LoopState.resname hfc
      have hbx0 := congrArg LoopState.boxes hfc
      have hx : r1.xyzs = r2.xyzs := hx0
      have he : r1.elements = r2.elements := he0
      have hat : r1.atomname = r2.atomname := hat0
      have hri : r1.resid = r2.resid := hri0
      have hrn : r1.resname = r2.resname := hrn0
      have hbx : r1.boxes = r2.boxes := hbx0
      rw [hx, he, hat, hri, hrn, hbx]

/-- C4: at any per-frame offset `ln >= 2`, a line that neither classifies
as a coordinate line nor is a box line sitting exactly at `ln == na + 2`
makes parsing fail immediately with an error whose message embeds the raw
line; the lines after it are never consumed and no object is returned. -/
theorem C4_theorem (pre : List String) (line : String) (post : List String)
    (s : LoopState) (hrun : groRun pre initState = .ok s) (hln : 2 ≤ s.ln)
    (hc : _is_gro_coord line = false)
    (hb : _is_gro_box line = false ∨ ¬s.ln = s.na + 2) :
    GromacsGroFile.init (pre ++ line :: post) =
      .error ("Unexpected line in .gro file: " ++ line) := by
  have hstep := groStep_err s line (by omega) (by omega) hc (by
    rintro ⟨hb1, hb2⟩
    rcases hb with h | h
    · rw [h] at hb1
      exact Bool.false_ne_true hb1
    · exact h hb2)
  unfold GromacsGroFile.init
  rw [groRun_append pre (line :: post) initState, hrun]
  dsimp only
  rw [groRun_cons_err line post s _ hstep]

/-- C4 witness: after a title and the count `1`, the 2-token line
`"hello world"` is neither a coordinate nor a box line; the parse of the
whole input fails with the offending line embedded in the message. -/
theorem C4_witness :
    GromacsGroFile.init ["t", "1", "hello world", "1.0 1.0 1.0"] =
      .error "Unexpected line in .gro file: hello world" :=
  C4_theorem ["t", "1"] "hello world" ["1.0 1.0 1.0"]
    { xyzs := [], elements := [], atomname := [], comms := ["t"], resid := [],
      resname := [], boxes := [], xyz := [], ln := 2, frame := 0, na := 1 }
    (by decide) (by decide) (by decide) (Or.inl (by decide))

/-- C5: for an input of `N >= 1` complete frames (title, atom count `na`,
`na` fully consumable coordinate lines, and a sealing box line at offset
`na + 2`), optionally followed by a truncated trailing partial frame with
no box line, parsing succeeds, `getNumFrames()` is exactly `N`, the
topology (atom-name) length is `na`, and every retained frame's position
sequence has length `na`; the partial frame is neither surfaced as a
frame nor reported as an error.  ("Complete" is §4.2's "fully sealed": in
particular the box line must not also classify as a coordinate line,
which the scanner would consume first — see C1.) -/
theorem C5_theorem (na : Nat) (fds : List FrameData) (leftover : List String)
    (hne : fds ≠ []) (hok : ∀ f ∈ fds, frameOk na f) (hlo : leftoverOk leftover) :
    ∃ m, GromacsGroFile.init ((fds.map FrameData.lines).flatten ++ leftover) = .ok m ∧
      m.getNumFrames = fds.length ∧
      m.atomNames.length = na ∧
      (∀ ps ∈ m._positions, ps.length = na) := by
  obtain ⟨r, hrun, hln, hxyz, hfr, hxlen, hmem, halen⟩ :=
    groRun_frames na fds initState hok rfl rfl
  have hpos : 0 < fds.length := List.length_pos.mpr hne
  have hfr0 : ¬r.frame = 0 := by
    rw [hfr]
    dsimp only [initState]
    omega
  obtain ⟨r2, hrun2, hxyzs2, halen2⟩ := groRun_leftover leftover r hlo hln hfr0
  have hlen2 : r2.xyzs.length = fds.length := by
    rw [hxyzs2, hxlen]
    simp [initState]
  have halen3 : r2.atomname.length = na := by
    rw [halen2, halen, if_pos ⟨rfl, hne⟩]
    simp [initState]
  unfold GromacsGroFile.init
  rw [groRun_append, hrun]
  dsimp only
  rw [hrun2]
  dsimp only
  cases hxy : r2.xyzs with
  | nil =>
    rw [hxy] at hlen2
    simp at hlen2
    omega
  | cons first tail =>
    dsimp only
    refine ⟨_, rfl, ?_, halen3, ?_⟩
    · show (first :: tail).length = fds.length
      rw [← hxy]
      exact hlen2
    · intro ps hps
      have hmem2 : ps ∈ r.xyzs := by
        rw [← hxyzs2, hxy]
        exact hps
      rcases hmem ps hmem2 with h | h
      · exact absurd h (List.not_mem_nil ps)
      · exact h

/-- C5 witness: one complete single-atom frame followed by a truncated
partial frame (title, count, one coordinate line, no box line) parses to
a model with exactly one frame of length 1 and topology length 1. -/
theorem C5_witness :
    ∃ m, GromacsGroFile.init
        (([⟨"t", "1", ["    1SOL     OW    1   1.000   2.000   3.000"],
            "1.0 2.0 3.0"⟩].map FrameData.lines).flatten ++
          ["t2", "1", "    1SOL     OW    1   1.000   2.000   3.000"]) = .ok m ∧
      m.getNumFrames = 1 ∧
      m.atomNames.length = 1 ∧
      (∀ ps ∈ m._positions, ps.length = 1) :=
  C5_theorem 1
    [⟨"t", "1", ["    1SOL     OW    1   1.000   2.000   3.000"], "1.0 2.0 3.0"⟩]
    ["t2", "1", "    1SOL     OW    1   1.000   2.000   3.000"]
    (by decide) (by decide) (by decide)

/-- C8: a freshly parsed object has an empty numpy cache; from that
state, calling `getPositions` with the numpy representation twice returns
the same value both times (the second call serves the value memoized by
the first, and leaves the object unchanged), that value is numerically
identical to the native list-of-vectors representation, and the caching
does not change the underlying `_positions` data. -/
theorem C8_theorem :
    (∀ lines m, GromacsGroFile.init lines = .ok m → m._numpyPositions = none) ∧
    (∀ (m : GromacsGroFile) (frame : Int) (j : Nat),
      m._numpyPositions = none → pyIdx m._positions.length frame = some j →
      ∃ q m1 ps,
        m.getPositions true frame = .ok (.numpy q, m1) ∧
        m1.getPositions true frame = .ok (.numpy q, m1) ∧
        m.getPositions false frame = .ok (.native ps, m) ∧
        q.arr = ps ∧ m1._positions = m._positions) := by
  constructor
  · intro lines m h
    unfold GromacsGroFile.init at h
    cases hr : groRun lines initState with
    | error e =>
      rw [hr] at h
      cases h
    | ok s =>
      rw [hr] at h
      dsimp only at h
      cases hxy : s.xyzs with
      | nil =>
        rw [hxy] at h
        cases h
      | cons a rest =>
        rw [hxy] at h
        dsimp only at h
        injection h with h2
        rw [← h2]
  · intro m frame j hnone hidx
    have hjlt := pyIdx_bound _ _ _ hidx
    obtain ⟨ps, hpget, hpgetj⟩ := pyGet_some m._positions frame j hidx
    have hclen : (List.replicate m._positions.length (none : Option NumpyQuantity)).length
        = m._positions.length := List.length_replicate _ _
    have hidxc : pyIdx (List.replicate m._positions.length
        (none : Option NumpyQuantity)).length frame = some j := by
      rw [hclen]
      exact hidx
    have hgetc : pyGet (List.replicate m._positions.length
        (none : Option NumpyQuantity)) frame = some none := by
      rw [pyGet_eq_get? _ frame j hidxc]
      simp [List.get?_eq_getElem?, List.getElem?_replicate, hjlt]
    have hsetc : pySet (List.replicate m._positions.length
          (none : Option NumpyQuantity)) frame (some (numpyArray (value_in_unit ps))) =
        some ((List.replicate m._positions.length (none : Option NumpyQuantity)).set j
          (some (numpyArray (value_in_unit ps)))) :=
      pySet_eq _ frame _ j hidxc
    have hslen : ((List.replicate m._positions.length (none : Option NumpyQuantity)).set j
        (some (numpyArray (value_in_unit ps)))).length = m._positions.length := by
      rw [List.length_set, hclen]
    have hidxs : pyIdx ((List.replicate m._positions.length (none : Option NumpyQuantity)).set j
        (some (numpyArray (value_in_unit ps)))).length frame = some j := by
      rw [hslen]
      exact hidx
    have hgets : pyGet ((List.replicate m._positions.length (none : Option NumpyQuantity)).set j
          (some (numpyArray (value_in_unit ps)))) frame =
        some (some (numpyArray (value_in_unit ps))) := by
      rw [pyGet_eq_get? _ frame j hidxs]
      exact get?_set_self _ j _ (by rw [hclen]; exact hjlt)
    refine ⟨numpyArray (value_in_unit ps), ?_, ps, ?_, ?_, ?_, ?_, ?_⟩
    case _ =>
      exact { m with _numpyPositions := some ((List.replicate m._positions.length (none : Option NumpyQuantity)).set j (some (numpyArray (value_in_unit ps)))) }
    · unfold GromacsGroFile.getPositions
      rw [if_pos rfl, hnone]
      dsimp only
      rw [hgetc]
      dsimp only
      rw [hpget]
      dsimp only
      rw [hsetc]
    · unfold GromacsGroFile.getPositions
      rw [if_pos rfl]
      dsimp only
      rw [hgets]
    · unfold GromacsGroFile.getPositions
      rw [if_neg Bool.false_ne_true]
      rw [hpget]
    · rfl
    · rfl

/-- C8 witness: both representations at a concrete freshly parsed
one-frame model with frame index 0. -/
theorem C8_witness :
    ∃ q m1 ps,
      GromacsGroFile.getPositions
        { positions := [(1, 2, 3)], elements := [some "O"], atomNames := ["OW"],
          residueIds := [1], residueNames := ["SOL"], _positions := [[(1, 2, 3)]],
          _unitCellDimensions := [[1, 2, 3]], _numpyPositions := none } true 0 =
        .ok (.numpy q, m1) ∧
      m1.getPositions true 0 = .ok (.numpy q, m1) ∧
      GromacsGroFile.getPositions
        { positions := [(1, 2, 3)], elements := [some "O"], atomNames := ["OW"],
          residueIds := [1], residueNames := ["SOL"], _positions := [[(1, 2, 3)]],
          _unitCellDimensions := [[1, 2, 3]], _numpyPositions := none } false 0 =
        .ok (.native ps,
          { positions := [(1, 2, 3)], elements := [some "O"], atomNames := ["OW"],
            residueIds := [1], residueNames := ["SOL"], _positions := [[(1, 2, 3)]],
            _unitCellDimensions := [[1, 2, 3]], _numpyPositions := none }) ∧
      q.arr = ps ∧
      m1._positions = [[(1, 2, 3)]] :=
  C8_theorem.2
    { positions := [(1, 2, 3)], elements := [some "O"], atomNames := ["OW"],
      residueIds := [1], residueNames := ["SOL"], _positions := [[(1, 2, 3)]],
      _unitCellDimensions := [[1, 2, 3]], _numpyPositions := none } 0 0 rfl (by decide)

/-- C10: for every model with `N` frames and `N` box records and every
`k` with `1 <= k <= N`, the accessors accept the negative frame index
`-k` without error and return the data of frame `N - k`. -/
theorem C10_theorem (m : GromacsGroFile) (N k : Nat)
    (hp : m._positions.length = N) (hbx : m._unitCellDimensions.length = N)
    (h1 : 1 ≤ k) (h2 : k ≤ N) :
    m.getPositions false (-(k : Int)) = m.getPositions false ((N : Int) - k) ∧
    (∃ ps, m.getPositions false (-(k : Int)) = .ok (.native ps, m)) ∧
    m.getUnitCellDimensions (-(k : Int)) = m.getUnitCellDimensions ((N : Int) - k) ∧
    (∃ b, m.getUnitCellDimensions (-(k : Int)) = .ok b) := by
  obtain ⟨hin, hin2⟩ := pyIdx_neg_eq N k h1 h2
  have hidxp : pyIdx m._positions.length (-(k : Int)) = some (N - k) := by
    rw [hp]
    exact hin
  have hidxp2 : pyIdx m._positions.length ((N : Int) - k) = some (N - k) := by
    rw [hp]
    exact hin2
  obtain ⟨x, hx1, hx2⟩ := pyGet_some m._positions (-(k : Int)) (N - k) hidxp
  have hx3 : pyGet m._positions ((N : Int) - k) = some x := by
    rw [pyGet_eq_get? _ _ _ hidxp2]
    exact hx2
  have hidxb : pyIdx m._unitCellDimensions.length (-(k : Int)) = some (N - k) := by
    rw [hbx]
    exact hin
  have hidxb2 : pyIdx m._unitCellDimensions.length ((N : Int) - k) = some (N - k) := by
    rw [hbx]
    exact hin2
  obtain ⟨y, hy1, hy2⟩ := pyGet_some m._unitCellDimensions (-(k : Int)) (N - k) hidxb
  have hy3 : pyGet m._unitCellDimensions ((N : Int) - k) = some y := by
    rw [pyGet_eq_get? _ _ _ hidxb2]
    exact hy2
  refine ⟨?_, ⟨x, ?_⟩, ?_, ⟨y, ?_⟩⟩
  · unfold GromacsGroFile.getPositions
    rw [if_neg Bool.false_ne_true, if_neg Bool.false_ne_true, hx1, hx3]
  · unfold GromacsGroFile.getPositions
    rw [if_neg Bool.false_ne_true, hx1]
  · unfold GromacsGroFile.getUnitCellDimensions
    rw [hy1, hy3]
  · unfold GromacsGroFile.getUnitCellDimensions
    rw [hy1]

/-- C10 witness: a concrete two-frame model where index `-1` addresses
frame `1 = 2 - 1`. -/
theorem C10_witness :
    (GromacsGroFile.getPositions
        { positions := [(1, 1, 1)], elements := [some "O"], atomNames := ["OW"],
          residueIds := [1], residueNames := ["SOL"],
          _positions := [[(1, 1, 1)], [(2, 2, 2)]],
          _unitCellDimensions := [[1, 1, 1], [2, 2, 2]], _numpyPositions := none }
        false (-((1 : Nat) : Int)) =
      GromacsGroFile.getPositions
        { positions := [(1, 1, 1)], elements := [some "O"], atomNames := ["OW"],
          residueIds := [1], residueNames := ["SOL"],
          _positions := [[(1, 1, 1)], [(2, 2, 2)]],
          _unitCellDimensions := [[1, 1, 1], [2, 2, 2]], _numpyPositions := none }
        false (((2 : Nat) : Int) - ((1 : Nat) : Int))) ∧
    (∃ ps, GromacsGroFile.getPositions
        { positions := [(1, 1, 1)], elements := [some "O"], atomNames := ["OW"],
          residueIds := [1], residueNames := ["SOL"],
          _positions := [[(1, 1, 1)], [(2, 2, 2)]],
          _unitCellDimensions := [[1, 1, 1], [2, 2, 2]], _numpyPositions := none }
        false (-((1 : Nat) : Int)) =
      .ok (.native ps,
        { positions := [(1, 1, 1)], elements := [some "O"], atomNames := ["OW"],
          residueIds := [1], residueNames := ["SOL"],
          _positions := [[(1, 1, 1)], [(2, 2, 2)]],
          _unitCellDimensions := [[1, 1, 1], [2, 2, 2]], _numpyPositions := none })) ∧
    (GromacsGroFile.getUnitCellDimensions
        { positions := [(1, 1, 1)], elements := [some "O"], atomNames := ["OW"],
          residueIds := [1], residueNames := ["SOL"],
          _positions := [[(1, 1, 1)], [(2, 2, 2)]],
          _unitCellDimensions := [[1, 1, 1], [2, 2, 2]], _numpyPositions := none }
        (-((1 : Nat) : Int)) =
      GromacsGroFile.getUnitCellDimensions
        { positions := [(1, 1, 1)], elements := [some "O"], atomNames := ["OW"],
          residueIds := [1], residueNames := ["SOL"],
          _positions := [[(1, 1, 1)], [(2, 2, 2)]],
          _unitCellDimensions := [[1, 1, 1], [2, 2, 2]], _numpyPositions := none }
        (((2 : Nat) : Int) - ((1 : Nat) : Int))) ∧
    (∃ b, GromacsGroFile.getUnitCellDimensions
        { positions := [(1, 1, 1)], elements := [some "O"], atomNames := ["OW"],
          residueIds := [1], residueNames := ["SOL"],
          _positions := [[(1, 1, 1)], [(2, 2, 2)]],
          _unitCellDimensions := [[1, 1, 1], [2, 2, 2]], _numpyPositions := none }
        (-((1 : Nat) : Int)) = .ok b) :=
  C10_theorem
    { positions := [(1, 1, 1)], elements := [some "O"], atomNames := ["OW"],
      residueIds := [1], residueNames := ["SOL"],
      _positions := [[(1, 1, 1)], [(2, 2, 2)]],
      _unitCellDimensions := [[1, 1, 1], [2, 2, 2]], _numpyPositions := none }
    2 1 rfl rfl (by decide) (by decide)
